import Mathlib

/-!
Shallow embedding of the worm-movement core of the `puzzle-game-rs`
repository: the grid vector and direction algebra (`src/spacial/vector3i.rs`,
`src/spacial/direction3.rs`), the segment chain (`src/worm/segments.rs`) and
the worm aggregate (`src/worm.rs`), together with theorems settling the
specification claims about them.
-/

namespace PuzzleGame

/-- `Direction3` from `src/spacial/direction3.rs`: a six-way cardinal
direction, one of the three axis pairs. -/
inductive Direction3 where
  | East
  | West
  | North
  | South
  | Up
  | Down
deriving DecidableEq, Repr

/-- `Vector3i` from `src/spacial/vector3i.rs`: a 3D grid position with
signed integer components. -/
structure Vector3i where
  x : Int
  y : Int
  z : Int
deriving DecidableEq, Repr

/-- `impl From<Direction3> for Vector3i`: each component is produced by its
own match, exactly as in the source. -/
def Direction3.toVector3i (value : Direction3) : Vector3i where
  x := match value with
    | .East => 1
    | .West => -1
    | _ => 0
  y := match value with
    | .North => 1
    | .South => -1
    | _ => 0
  z := match value with
    | .Up => 1
    | .Down => -1
    | _ => 0

/-- `impl Neg for Direction3`. -/
def Direction3.neg (d : Direction3) : Direction3 :=
  match d with
  | .East => .West
  | .West => .East
  | .North => .South
  | .South => .North
  | .Up => .Down
  | .Down => .Up

/-- `impl Add for Vector3i`: component-wise addition. -/
def Vector3i.add (a b : Vector3i) : Vector3i :=
  { x := a.x + b.x, y := a.y + b.y, z := a.z + b.z }

/-- `impl Add<Direction3> for Vector3i`: add the direction's unit vector. -/
def Vector3i.addDir (v : Vector3i) (d : Direction3) : Vector3i :=
  v.add d.toVector3i

/-- `WormSegments` from `src/worm/segments.rs`: a double-ended sequence of
directions behind the head. The `VecDeque` is modelled as a list read
head-to-tail; the type invariant "WormSegments cannot be empty" (enforced by
the construction assert and the `expect`s) is carried as a proof field. -/
structure WormSegments where
  directions : List Direction3
  nonempty : directions ≠ []

instance : DecidableEq WormSegments := fun a b =>
  if h : a.directions = b.directions then
    isTrue (by cases a; cases b; simp_all)
  else
    isFalse (fun he => h (by rw [he]))

/-- `PopResult` from `src/worm/segments.rs`. -/
structure PopResult where
  old_direction : Direction3
  updated_segments : Option WormSegments

/-- `WormSegments::len`. -/
def WormSegments.len (s : WormSegments) : Nat :=
  s.directions.length

/-- `WormSegments::head_direction`: the front entry; the `expect` cannot
fire because of the nonemptiness invariant. -/
def WormSegments.headDirection (s : WormSegments) : Direction3 :=
  s.directions.head s.nonempty

/-- `WormSegments::tail_direction`: the back entry. -/
def WormSegments.tailDirection (s : WormSegments) : Direction3 :=
  s.directions.getLast s.nonempty

/-- `WormSegments::push_head`: prepend at the head end. -/
def WormSegments.pushHead (s : WormSegments) (direction : Direction3) : WormSegments :=
  { directions := direction :: s.directions, nonempty := List.cons_ne_nil _ _ }

/-- `WormSegments::push_tail`: append at the tail end. -/
def WormSegments.pushTail (s : WormSegments) (direction : Direction3) : WormSegments :=
  { directions := s.directions ++ [direction]
    nonempty := by simp }

/-- `WormSegments::pop_head`: consume the chain, remove the front entry, and
return it together with the remaining chain, `none` if removal emptied it. -/
def WormSegments.popHead (s : WormSegments) : PopResult :=
  { old_direction := s.headDirection
    updated_segments :=
      if h : s.directions.tail = [] then none
      else some { directions := s.directions.tail, nonempty := h } }

/-- `WormSegments::pop_tail`: consume the chain, remove the back entry, and
return it together with the remaining chain, `none` if removal emptied it. -/
def WormSegments.popTail (s : WormSegments) : PopResult :=
  { old_direction := s.tailDirection
    updated_segments :=
      if h : s.directions.dropLast = [] then none
      else some { directions := s.directions.dropLast, nonempty := h } }

/-- `impl From<Direction3> for WormSegments`: a one-entry chain. -/
def WormSegments.fromDirection (d : Direction3) : WormSegments :=
  { directions := [d], nonempty := List.cons_ne_nil _ _ }

/-- The message of the failed `assert!(iter.peek().is_some())` in
`WormSegments::from_iter`. -/
def emptyAssertMessage : String := "assertion failed: iter.peek().is_some()"

/-- Core of `impl FromIterator<Direction3> for WormSegments`: `none` models
the assertion on a peeked empty iterator firing (a Rust panic). -/
def WormSegments.fromIterCore (dirs : List Direction3) : Option WormSegments :=
  if h : dirs = [] then none
  else some { directions := dirs, nonempty := h }

/-- Outcome of a fallible chain construction. `ok` is a successfully built
chain; `err` is a recoverable error value returned to the caller; `panicked`
is a Rust panic such as a failed assertion. The source's `from_iter` never
produces `err`: the constructor exists so that the spec's claimed
`EmptyChainError` behaviour is statable and comparable with the code. -/
inductive ChainBuildOutcome where
  | ok (chain : WormSegments)
  | err (message : String)
  | panicked (message : String)
deriving DecidableEq

/-- `WormSegments::from_iter` with its failure mode made explicit: on an
empty input the `assert!` fires, which is a panic, not a returned error. -/
def WormSegments.fromIter (dirs : List Direction3) : ChainBuildOutcome :=
  match WormSegments.fromIterCore dirs with
  | some chain => .ok chain
  | none => .panicked emptyAssertMessage

/-- `Worm` from `src/worm.rs`: a head position and an optional segment
chain; a missing chain means a tailless, length-1 creature. -/
structure Worm where
  head_position : Vector3i
  segments : Option WormSegments
deriving DecidableEq

/-- Outcome of `Worm::new`, which can panic through
`WormSegments::from_iter`. -/
inductive WormNewOutcome where
  | ok (worm : Worm)
  | panicked (message : String)
deriving DecidableEq

/-- `Worm::new`: always wraps the constructed chain in `Some`; on an empty
direction sequence the inner `from_iter` assertion fires. -/
def Worm.new (head_position : Vector3i) (dirs : List Direction3) : WormNewOutcome :=
  match WormSegments.fromIterCore dirs with
  | some chain => .ok { head_position := head_position, segments := some chain }
  | none => .panicked emptyAssertMessage

/-- `Worm::new_tailless`. -/
def Worm.new_tailless (head_position : Vector3i) : Worm :=
  { head_position := head_position, segments := none }

/-- `Worm::is_tailless`. -/
def Worm.is_tailless (w : Worm) : Bool :=
  w.segments.isNone

/-- `Worm::num_segments`: `segments.len() + 1` when a chain is present,
else `1`. -/
def Worm.num_segments (w : Worm) : Nat :=
  match w.segments with
  | some chain => chain.len + 1
  | none => 1

/-- `Worm::crawl`: advance the head by the travel direction; if tailed,
either flow the chain forward (push a segment pointing back at the vacated
head cell, pop the tail) or, when the travel direction would double back
through the neck, grow the tail straight and pop the head instead. -/
def Worm.crawl (w : Worm) (crawl_direction : Direction3) : Worm :=
  let new_head_position := w.head_position.addDir crawl_direction
  match w.segments with
  | none => { head_position := new_head_position, segments := none }
  | some chain =>
    let new_head_direction := crawl_direction.neg
    let current_head_direction := chain.headDirection
    if current_head_direction.neg ≠ new_head_direction then
      { head_position := new_head_position
        segments := ((chain.pushHead new_head_direction).popTail).updated_segments }
    else
      { head_position := new_head_position
        segments := ((chain.pushTail chain.tailDirection).popHead).updated_segments }

/-- The branch test of `Worm::crawl`, extracted: `true` exactly when a chain
is present and the crawl takes the normal-advance branch
(`-current_head_direction != new_head_direction` in the source). -/
def Worm.takesNormalBranch (w : Worm) (crawl_direction : Direction3) : Bool :=
  match w.segments with
  | none => false
  | some chain => decide (chain.headDirection.neg ≠ crawl_direction.neg)

/-- Outcome of `Worm::try_lengthen`: the error variant models
`LengthenTaillessError`, which borrows the (unchanged) worm so the caller
can resolve it with an explicit direction. -/
inductive LengthenOutcome where
  | ok (worm : Worm)
  | lengthenTaillessErr (worm : Worm)
deriving DecidableEq

/-- `Worm::try_lengthen`: extend the chain by its own tail direction, or
fail when tailless. -/
def Worm.tryLengthen (w : Worm) : LengthenOutcome :=
  match w.segments with
  | some chain => .ok { w with segments := some (chain.pushTail chain.tailDirection) }
  | none => .lengthenTaillessErr w

/-- `LengthenTaillessError::resolve`: install a brand-new one-entry chain in
the supplied direction on the worm the error borrowed. -/
def Worm.resolveLengthenTailless (w : Worm) (direction : Direction3) : Worm :=
  { w with segments := some (WormSegments.fromDirection direction) }

/-- `Worm::segment_positions` without the outer head element: the `scan`
over the chain, accumulating from the head position. -/
def scanSegmentPositions : Vector3i → List Direction3 → List Vector3i
  | _, [] => []
  | p, d :: rest => (p.addDir d) :: scanSegmentPositions (p.addDir d) rest

/-- The stored chain directions of a worm, head-to-tail; `[]` when
tailless. -/
def Worm.chainDirections (w : Worm) : List Direction3 :=
  match w.segments with
  | none => []
  | some chain => chain.directions

/-- `Worm::segment_positions`: the head position followed by the running
sums of the chain directions. -/
def Worm.segmentPositions (w : Worm) : List Vector3i :=
  w.head_position :: scanSegmentPositions w.head_position w.chainDirections

/-- Outcome of the strict crawl variant: the error variant models
`InvalidDirectionError`, carrying the untouched worm. -/
inductive TryCrawlOutcome where
  | ok (worm : Worm)
  | invalidDirectionErr (worm : Worm)
deriving DecidableEq

/-- Modelled from the spec: `Worm::try_crawl` is named by the spec but is
absent from the sources under `src/`. Per the spec it fails with
`InvalidDirectionError` and performs no mutation at all when the requested
travel direction is the one `crawl` would auto-handle as a reversal (the
move back through the creature's own neck, i.e.
`-chain.head_direction() == -d` in the branch test of `crawl`), and
otherwise behaves as a normal crawl. -/
def Worm.tryCrawl (w : Worm) (crawl_direction : Direction3) : TryCrawlOutcome :=
  match w.segments with
  | none => .ok (w.crawl crawl_direction)
  | some chain =>
    if chain.headDirection.neg = crawl_direction.neg then .invalidDirectionErr w
    else .ok (w.crawl crawl_direction)

/-- Modelled from the spec: the chain parser `Worm::from_str` is absent from
the sources under `src/` (only its test remains, in
`src/worm/tests.rs`). This is the character vocabulary exactly as the spec
states it: `<` to East, `>` to West, `^` to North, `v` to South, `o` to
Down, `x` to Up; anything else is out of vocabulary. -/
def specCharDirection (c : Char) : Option Direction3 :=
  match c with
  | '<' => some .East
  | '>' => some .West
  | '^' => some .North
  | 'v' => some .South
  | 'o' => some .Down
  | 'x' => some .Up
  | _ => none

/-- Modelled from the spec and the repository's own parser test
(`src/worm/tests.rs`, `from_str::test_doc`): the character vocabulary that
the test forces, which swaps the spec's assignments of `<` and `>`
(`>` to East, `<` to West) and keeps the remaining four as the spec states
them. -/
def testCharDirection (c : Char) : Option Direction3 :=
  match c with
  | '>' => some .East
  | '<' => some .West
  | '^' => some .North
  | 'v' => some .South
  | 'o' => some .Down
  | 'x' => some .Up
  | _ => none

/-- Modelled from the spec: all-or-nothing translation of the characters
through a vocabulary, stopping at the first out-of-vocabulary character and
reporting it. -/
def parseDirections (vocab : Char → Option Direction3) :
    List Char → Except Char (List Direction3)
  | [] => .ok []
  | c :: rest =>
    match vocab c with
    | some d => (parseDirections vocab rest).map (fun ds => d :: ds)
    | none => .error c

/-- Outcome of the chain parser: a worm, a rejection naming the offending
character, or a panic propagated from `Worm::new`. -/
inductive ParseOutcome where
  | ok (worm : Worm)
  | badChar (c : Char)
  | panicked (message : String)
deriving DecidableEq

/-- Modelled from the spec: `Worm::from_str` over a given vocabulary — map
every character to a direction and feed the sequence to `Worm::new`,
producing no partial worm on failure. -/
def fromStrWith (vocab : Char → Option Direction3) (head_position : Vector3i)
    (s : String) : ParseOutcome :=
  match parseDirections vocab s.data with
  | .error c => .badChar c
  | .ok dirs =>
    match Worm.new head_position dirs with
    | .ok w => .ok w
    | .panicked m => .panicked m

/-- `Worm::from_str` with the spec's stated reference mapping. -/
def Worm.fromStrSpec : Vector3i → String → ParseOutcome :=
  fromStrWith specCharDirection

/-- `Worm::from_str` with the mapping the repository's own test forces. -/
def Worm.fromStrByTest : Vector3i → String → ParseOutcome :=
  fromStrWith testCharDirection

/-- Truth of a parse outcome being a rejection that names a genuinely
out-of-vocabulary character of the parsed input (and hence no worm, partial
or otherwise, was produced). -/
def ParseOutcome.namesBadChar (o : ParseOutcome)
    (vocab : Char → Option Direction3) (cs : List Char) : Prop :=
  match o with
  | .badChar c => vocab c = none ∧ c ∈ cs
  | _ => False

/-- Whether a lengthen outcome is a success. -/
def LengthenOutcome.isOk : LengthenOutcome → Bool
  | .ok _ => true
  | .lengthenTaillessErr _ => false

/-- Whether a chain construction outcome is a recoverable error value
returned to the caller (as opposed to a success or a panic). -/
def ChainBuildOutcome.isRecoverableError : ChainBuildOutcome → Bool
  | .err _ => true
  | _ => false

/-! ## Concrete fixtures used by counterexamples and witnesses -/

/-- A one-entry chain pointing East. -/
def chainE : WormSegments := ⟨[.East], List.cons_ne_nil _ _⟩

/-- A worm at the origin whose single chain entry points East. -/
def wormE : Worm := { head_position := ⟨0, 0, 0⟩, segments := some chainE }

/-- A two-entry chain pointing East twice. -/
def chainEE : WormSegments := ⟨[.East, .East], List.cons_ne_nil _ _⟩

/-- The worm `wormE` becomes after one lengthen. -/
def wormEE : Worm := { head_position := ⟨0, 0, 0⟩, segments := some chainEE }

/-- A tailless worm at the origin. -/
def wormT : Worm := Worm.new_tailless ⟨0, 0, 0⟩

/-- The round-trip worm of the spec's test list: head `(2,9,1)` and chain
`[North, North, East, Up, West, West, Down]`. -/
def roundTripWorm : Worm :=
  { head_position := ⟨2, 9, 1⟩
    segments := some ⟨[.North, .North, .East, .Up, .West, .West, .Down],
      List.cons_ne_nil _ _⟩ }

/-- The worm the spec's stated reference mapping parses the test string
into: every `>` becomes West and every `<` becomes East. -/
def wormSpecParsed : Worm :=
  { head_position := ⟨5, 3, 8⟩
    segments := some ⟨[.West, .West, .West, .North, .West, .South, .West, .Down,
      .East, .East, .Up, .South, .East], List.cons_ne_nil _ _⟩ }

/-- The worm built directly from the parser test's direction list with head
`(5,3,8)`. -/
def wormDirect : Worm :=
  { head_position := ⟨5, 3, 8⟩
    segments := some ⟨[.East, .East, .East, .North, .East, .South, .East, .Down,
      .West, .West, .Up, .South, .West], List.cons_ne_nil _ _⟩ }

/-- The parser test string of the spec and of `src/worm/tests.rs`. -/
def parserTestString : String := ">>>^>v>o<<xv<"

/-- The direction list the parser test builds its comparison worm from. -/
def parserTestDirections : List Direction3 :=
  [.East, .East, .East, .North, .East, .South, .East, .Down,
   .West, .West, .Up, .South, .West]

/-! ## Helper lemmas -/

theorem Direction3.neg_inj {a b : Direction3} : a.neg = b.neg ↔ a = b := by
  cases a <;> cases b <;> decide

/-- Pushing a fresh segment onto the head and then popping the tail never
empties the chain and preserves its length. -/
theorem WormSegments.popTail_pushHead (s : WormSegments) (d : Direction3) :
    ∃ s2 : WormSegments,
      ((s.pushHead d).popTail).updated_segments = some s2 ∧ s2.len = s.len := by
  obtain ⟨l, hl⟩ := s
  have hlen : (d :: l).dropLast.length = l.length := by
    simp [List.length_dropLast]
  have hne : (d :: l).dropLast ≠ [] := by
    apply List.ne_nil_of_length_pos
    rw [hlen]
    exact List.length_pos.mpr hl
  refine ⟨⟨(d :: l).dropLast, hne⟩, ?_, ?_⟩
  · simp [WormSegments.pushHead, WormSegments.popTail, hne]
  · exact hlen

/-- Pushing a fresh segment onto the tail and then popping the head never
empties the chain and preserves its length. -/
theorem WormSegments.popHead_pushTail (s : WormSegments) (d : Direction3) :
    ∃ s2 : WormSegments,
      ((s.pushTail d).popHead).updated_segments = some s2 ∧ s2.len = s.len := by
  obtain ⟨l, hl⟩ := s
  have hlen : (l ++ [d]).tail.length = l.length := by
    simp [List.length_tail]
  have hne : (l ++ [d]).tail ≠ [] := by
    apply List.ne_nil_of_length_pos
    rw [hlen]
    exact List.length_pos.mpr hl
  refine ⟨⟨(l ++ [d]).tail, hne⟩, ?_, ?_⟩
  · simp [WormSegments.pushTail, WormSegments.popHead, hne]
  · exact hlen

theorem scanSegmentPositions_length (p : Vector3i) (l : List Direction3) :
    (scanSegmentPositions p l).length = l.length := by
  induction l generalizing p with
  | nil => rfl
  | cons d rest ih => simp [scanSegmentPositions, ih]

/-- The step law of the position scan: each element after the head is the
previous element offset by the matching chain direction. -/
theorem scanSegmentPositions_step (l : List Direction3) :
    ∀ (p : Vector3i) (i : Nat) (d : Direction3), l[i]? = some d →
      (p :: scanSegmentPositions p l)[i + 1]? =
        ((p :: scanSegmentPositions p l)[i]?).map (fun q => q.addDir d) := by
  induction l with
  | nil =>
    intro p i d h
    simp at h
  | cons d0 rest ih =>
    intro p i d h
    cases i with
    | zero =>
      rw [List.getElem?_cons_zero] at h
      cases h
      simp [scanSegmentPositions]
    | succ j =>
      rw [List.getElem?_cons_succ] at h
      have step := ih (p.addDir d0) j d h
      simp only [scanSegmentPositions, List.getElem?_cons_succ]
      rw [List.getElem?_cons_succ] at step
      exact step

/-- Translating characters stops at the first out-of-vocabulary character
and reports a genuinely out-of-vocabulary character of the input. -/
theorem parseDirections_err_of_bad (vocab : Char → Option Direction3)
    (cs : List Char) :
    ∀ c : Char, c ∈ cs → vocab c = none →
      ∃ c2, parseDirections vocab cs = .error c2 ∧ vocab c2 = none ∧ c2 ∈ cs := by
  induction cs with
  | nil =>
    intro c hc
    cases hc
  | cons a rest ih =>
    intro c hc hv
    cases hva : vocab a with
    | none =>
      exact ⟨a, by simp [parseDirections, hva], hva, List.mem_cons_self a rest⟩
    | some d0 =>
      have hc2 : c ∈ rest := by
        rcases List.mem_cons.mp hc with rfl | hmem
        · rw [hva] at hv
          cases hv
        · exact hmem
      obtain ⟨c2, he, hv2, hm⟩ := ih c hc2 hv
      exact ⟨c2, by simp [parseDirections, hva, he, Except.map], hv2,
        List.mem_cons_of_mem a hm⟩

/-! ## Claim theorems -/

/-- C9: for every worm (tailless or tailed, including the reversal case) and
every travel direction `d`, one `crawl(d)` changes `head_position()` by
exactly the unit vector of `d`: the head position always advances by `d`. -/
theorem crawl_always_advances_head (w : Worm) (d : Direction3) :
    (w.crawl d).head_position = w.head_position.addDir d ∧
    (w.crawl d).head_position = w.head_position.add d.toVector3i := by
  constructor <;>
  · obtain ⟨p, segs⟩ := w
    cases segs with
    | none => rfl
    | some chain =>
      simp only [Worm.crawl]
      split <;> rfl

/-- C10: `crawl` preserves tailless status and total length for every worm
and every travel direction, in both the normal-advance and the reversal
branch: a tailless worm stays tailless, a tailed worm stays tailed (the
chain never becomes empty through a crawl), and `num_segments()` is
unchanged by every single crawl. -/
theorem crawl_preserves_taillessness_and_length (w : Worm) (d : Direction3) :
    (w.crawl d).is_tailless = w.is_tailless ∧
    (w.crawl d).num_segments = w.num_segments := by
  obtain ⟨p, segs⟩ := w
  cases segs with
  | none => exact ⟨rfl, rfl⟩
  | some chain =>
    obtain ⟨sA, hA, hlenA⟩ := WormSegments.popTail_pushHead chain d.neg
    obtain ⟨sB, hB, hlenB⟩ := WormSegments.popHead_pushTail chain chain.tailDirection
    simp only [Worm.crawl]
    split
    · simp [Worm.is_tailless, Worm.num_segments, hA, hlenA]
    · simp [Worm.is_tailless, Worm.num_segments, hB, hlenB]

/-- C4: for every worm with `n` segments (as reported by `num_segments()`)
and every travel direction that takes the normal-advance branch, one crawl
yields a worm that still has exactly `n` segments. -/
theorem crawl_normal_branch_preserves_num_segments (w : Worm) (d : Direction3)
    (h : w.takesNormalBranch d = true) :
    (w.crawl d).num_segments = w.num_segments := by
  obtain ⟨p, segs⟩ := w
  cases segs with
  | none => simp [Worm.takesNormalBranch] at h
  | some chain =>
    have h2 : chain.headDirection.neg ≠ d.neg := by
      have he : Worm.takesNormalBranch ⟨p, some chain⟩ d =
          decide (chain.headDirection.neg ≠ d.neg) := rfl
      rw [he, decide_eq_true_eq] at h
      exact h
    obtain ⟨sA, hA, hlenA⟩ := WormSegments.popTail_pushHead chain d.neg
    simp [Worm.crawl, h2, Worm.num_segments, hA, hlenA]

/-- C4 witness: a normal-advance crawl on a concrete one-chain-segment worm
keeps `num_segments()` at its prior value. -/
theorem crawl_normal_branch_preserves_num_segments_w :
    (wormE.crawl .North).num_segments = wormE.num_segments :=
  crawl_normal_branch_preserves_num_segments wormE .North (by decide)

/-- C1 counterexample: a worm whose chain contains exactly one segment,
crawled once in the normal-advance branch, does not collapse to tailless —
`is_tailless()` is `false` and `num_segments()` is `2` afterwards, because
`crawl` pushes the new head segment before popping the tail. -/
theorem one_segment_normal_crawl_counterexample :
    wormE.takesNormalBranch .North = true ∧
    (wormE.crawl .North).is_tailless = false ∧
    (wormE.crawl .North).num_segments = 2 := by decide

/-- C1 (amended): for every worm whose chain contains exactly one segment
and every travel direction taking the normal-advance branch, one crawl
leaves the worm tailed with exactly one chain segment: `is_tailless()`
remains `false`, `num_segments()` remains `2`, and no zero-length chain is
left behind (the chain never empties, because the new head segment is pushed
before the tail is popped). -/
theorem one_segment_normal_crawl_stays_tailed (w : Worm) (chain : WormSegments)
    (hseg : w.segments = some chain) (hlen : chain.len = 1) (d : Direction3)
    (hbr : w.takesNormalBranch d = true) :
    (w.crawl d).is_tailless = false ∧ (w.crawl d).num_segments = 2 ∧
    ∃ chain2 : WormSegments, (w.crawl d).segments = some chain2 ∧ chain2.len = 1 := by
  obtain ⟨p, segs⟩ := w
  have hseg2 : segs = some chain := hseg
  subst hseg2
  have h2 : chain.headDirection.neg ≠ d.neg := by
    have he : Worm.takesNormalBranch ⟨p, some chain⟩ d =
        decide (chain.headDirection.neg ≠ d.neg) := rfl
    rw [he, decide_eq_true_eq] at hbr
    exact hbr
  obtain ⟨sA, hA, hlenA⟩ := WormSegments.popTail_pushHead chain d.neg
  refine ⟨?_, ?_, sA, ?_, ?_⟩
  · simp [Worm.crawl, h2, Worm.is_tailless, hA]
  · simp [Worm.crawl, h2, Worm.num_segments, hA, hlenA, hlen]
  · simp [Worm.crawl, h2, hA]
  · rw [hlenA, hlen]

/-- C1 witness: the amended statement applied to a concrete one-segment worm
and a normal-advance travel direction. -/
theorem one_segment_normal_crawl_stays_tailed_w :
    (wormE.crawl .North).is_tailless = false ∧
    (wormE.crawl .North).num_segments = 2 :=
  ⟨(one_segment_normal_crawl_stays_tailed wormE chainE rfl rfl .North (by decide)).1,
   (one_segment_normal_crawl_stays_tailed wormE chainE rfl rfl .North (by decide)).2.1⟩

/-- C2: evaluating `Worm::new` at the failing input — with an empty
direction sequence the construction panics on the assertion inside
`WormSegments::from_iter` instead of yielding a tailless worm, while
`Worm::new_tailless` is the construction that does produce the tailless
state the claim (and the repository's own tests) expect. -/
theorem worm_new_empty_panics :
    Worm.new ⟨0, 0, 0⟩ [] = WormNewOutcome.panicked emptyAssertMessage ∧
    (Worm.new_tailless ⟨0, 0, 0⟩).is_tailless = true ∧
    (Worm.new_tailless ⟨0, 0, 0⟩).num_segments = 1 :=
  ⟨rfl, rfl, rfl⟩

/-- C3: for every tailed worm, the strict crawl variant fails with
`InvalidDirectionError` and performs no mutation at all (the error carries
the worm with head position and chain completely unchanged) when the
requested travel direction is the move back into the worm's own neck — the
case `crawl` auto-handles as a reversal — and otherwise behaves as a normal
crawl. -/
theorem try_crawl_spec (w : Worm) (chain : WormSegments)
    (hseg : w.segments = some chain) (d : Direction3) :
    (d = chain.headDirection → w.tryCrawl d = .invalidDirectionErr w) ∧
    (d ≠ chain.headDirection → w.tryCrawl d = .ok (w.crawl d)) := by
  obtain ⟨p, segs⟩ := w
  have hseg2 : segs = some chain := hseg
  subst hseg2
  constructor
  · intro he
    subst he
    simp [Worm.tryCrawl]
  · intro hne
    have hc : chain.headDirection.neg ≠ d.neg :=
      fun hc => hne (Direction3.neg_inj.mp hc).symm
    simp [Worm.tryCrawl, hc]

/-- C3 witness: on a concrete tailed worm the strict crawl rejects the
neck-reversal direction without mutation and performs a normal crawl on any
other direction. -/
theorem try_crawl_spec_w :
    wormE.tryCrawl .East = .invalidDirectionErr wormE ∧
    wormE.tryCrawl .North = .ok (wormE.crawl .North) :=
  ⟨(try_crawl_spec wormE chainE rfl .East).1 rfl,
   (try_crawl_spec wormE chainE rfl .North).2 (by decide)⟩

/-- C5: for every worm, `segment_positions()` starts with the head position,
has exactly `num_segments()` elements (hence exactly one element for a
tailless worm), and each subsequent element is the previous one offset by
the matching chain direction taken head-to-tail. -/
theorem segment_positions_spec (w : Worm) :
    w.segmentPositions.head? = some w.head_position ∧
    w.segmentPositions.length = w.num_segments ∧
    (w.is_tailless = true → w.segmentPositions = [w.head_position]) ∧
    ∀ (i : Nat) (d : Direction3), w.chainDirections[i]? = some d →
      w.segmentPositions[i + 1]? =
        (w.segmentPositions[i]?).map (fun q => q.addDir d) := by
  refine ⟨rfl, ?_, ?_, ?_⟩
  · obtain ⟨p, segs⟩ := w
    cases segs with
    | none => rfl
    | some chain =>
      simp [Worm.segmentPositions, Worm.chainDirections, Worm.num_segments,
        scanSegmentPositions_length, WormSegments.len]
  · intro ht
    obtain ⟨p, segs⟩ := w
    cases segs with
    | none => rfl
    | some chain => simp [Worm.is_tailless] at ht
  · intro i d h
    exact scanSegmentPositions_step w.chainDirections w.head_position i d h

/-- C5 witness: the head invariant on the spec's round-trip worm, the
one-element sequence on a tailless worm, and one concrete prefix-sum step. -/
theorem segment_positions_spec_w :
    roundTripWorm.segmentPositions.head? = some roundTripWorm.head_position ∧
    wormT.segmentPositions = [wormT.head_position] ∧
    roundTripWorm.segmentPositions[0 + 1]? =
      (roundTripWorm.segmentPositions[0]?).map (fun q => q.addDir .North) :=
  ⟨(segment_positions_spec roundTripWorm).1,
   (segment_positions_spec wormT).2.2.1 rfl,
   (segment_positions_spec roundTripWorm).2.2.2 0 .North rfl⟩

/-- C8 counterexample: constructing a segment chain from an empty sequence
does fail, but by a panic on the construction assertion, not by returning a
recoverable `EmptyChainError` to the caller. -/
theorem chain_from_empty_counterexample :
    WormSegments.fromIter [] = ChainBuildOutcome.panicked emptyAssertMessage ∧
    (WormSegments.fromIter []).isRecoverableError = false :=
  ⟨rfl, rfl⟩

/-- C8 (amended): constructing a segment chain from an empty sequence of
directions always fails — by panicking on the `from_iter` assertion rather
than with a recoverable `EmptyChainError` — construction from a non-empty
sequence succeeds, and every successful chain construction yields a chain
with `len() >= 1`. -/
theorem chain_construction_nonempty (dirs : List Direction3) :
    (dirs = [] → WormSegments.fromIter dirs = .panicked emptyAssertMessage) ∧
    (∀ h : dirs ≠ [], WormSegments.fromIter dirs = .ok ⟨dirs, h⟩) ∧
    (∀ chain, WormSegments.fromIter dirs = .ok chain → 1 ≤ chain.len) := by
  refine ⟨?_, ?_, ?_⟩
  · intro h
    subst h
    rfl
  · intro h
    simp [WormSegments.fromIter, WormSegments.fromIterCore, h]
  · intro chain _
    exact List.length_pos.mpr chain.nonempty

/-- C8 witness: the amended statement applied to the empty sequence and to a
concrete one-direction sequence. -/
theorem chain_construction_nonempty_w :
    WormSegments.fromIter [] = ChainBuildOutcome.panicked emptyAssertMessage ∧
    WormSegments.fromIter [Direction3.East] = ChainBuildOutcome.ok chainE ∧
    1 ≤ chainE.len :=
  ⟨(chain_construction_nonempty []).1 rfl,
   (chain_construction_nonempty [Direction3.East]).2.1 (List.cons_ne_nil _ _),
   (chain_construction_nonempty [Direction3.East]).2.2 chainE
     ((chain_construction_nonempty [Direction3.East]).2.1 (List.cons_ne_nil _ _))⟩

/-- C6: `try_lengthen` on a tailed worm succeeds, leaves the head position
unchanged, increases `num_segments()` by exactly 1, and the new tail segment
continues straight in the old tail's direction; on a tailless worm it fails
with `LengthenTaillessError` (carrying the unchanged worm), and resolving
that error with an explicit direction `d` installs a brand-new one-segment
chain in direction `d`, yielding a length-2 worm. -/
theorem try_lengthen_spec (w : Worm) (d : Direction3) :
    (∀ chain, w.segments = some chain →
      w.tryLengthen.isOk = true ∧
      ∀ w2, w.tryLengthen = .ok w2 →
        w2.head_position = w.head_position ∧
        w2.num_segments = w.num_segments + 1 ∧
        ∀ chain2, w2.segments = some chain2 →
          chain2.directions = chain.directions ++ [chain.tailDirection] ∧
          chain2.tailDirection = chain.tailDirection) ∧
    (w.segments = none →
      w.tryLengthen = .lengthenTaillessErr w ∧
      (w.resolveLengthenTailless d).segments = some (WormSegments.fromDirection d) ∧
      (w.resolveLengthenTailless d).num_segments = 2) := by
  obtain ⟨p, segs⟩ := w
  constructor
  · intro chain hseg
    have hseg2 : segs = some chain := hseg
    subst hseg2
    refine ⟨rfl, ?_⟩
    intro w2 hw2
    have hw2' : w2 = ⟨p, some (chain.pushTail chain.tailDirection)⟩ := by
      have heq : LengthenOutcome.ok w2 =
          LengthenOutcome.ok ⟨p, some (chain.pushTail chain.tailDirection)⟩ := hw2.symm
      cases heq
      rfl
    subst hw2'
    refine ⟨rfl, ?_, ?_⟩
    · simp [Worm.num_segments, WormSegments.pushTail, WormSegments.len]
    · intro chain2 hchain2
      have hchain2' : chain2 = chain.pushTail chain.tailDirection := by
        have : some chain2 = some (chain.pushTail chain.tailDirection) := hchain2.symm
        cases this
        rfl
      subst hchain2'
      refine ⟨rfl, ?_⟩
      simp [WormSegments.tailDirection, WormSegments.pushTail]
  · intro hseg
    have hseg2 : segs = none := hseg
    subst hseg2
    exact ⟨rfl, rfl, rfl⟩

/-- C6 witness: the lengthen contract applied to a concrete tailed worm (it
becomes the explicit two-segment worm) and to a concrete tailless worm
(failure, then resolution to a length-2 worm). -/
theorem try_lengthen_spec_w :
    wormEE.head_position = wormE.head_position ∧
    wormEE.num_segments = wormE.num_segments + 1 ∧
    chainEE.directions = chainE.directions ++ [chainE.tailDirection] ∧
    chainEE.tailDirection = chainE.tailDirection ∧
    wormT.tryLengthen = .lengthenTaillessErr wormT ∧
    (wormT.resolveLengthenTailless .North).num_segments = 2 := by
  have ht := ((try_lengthen_spec wormE .North).1 chainE rfl).2 wormEE rfl
  have h2 := ht.2.2 chainEE rfl
  have hn := (try_lengthen_spec wormT .North).2 rfl
  exact ⟨ht.1, ht.2.1, h2.1, h2.2, hn.1, hn.2.2⟩

/-- C7 counterexample: under the spec's stated reference mapping
(`<` to East, `>` to West, `^` to North, `v` to South, `o` to Down, `x` to
Up) the parser test input produces a worm whose segment positions differ
from those of the worm built directly from
`[East,East,East,North,East,South,East,Down,West,West,Up,South,West]` with
the same head — the two halves of the claim contradict each other. -/
theorem from_str_spec_mapping_counterexample :
    Worm.fromStrSpec ⟨5, 3, 8⟩ parserTestString = ParseOutcome.ok wormSpecParsed ∧
    Worm.new ⟨5, 3, 8⟩ parserTestDirections = WormNewOutcome.ok wormDirect ∧
    wormSpecParsed.segmentPositions ≠ wormDirect.segmentPositions := by
  refine ⟨?_, ?_, ?_⟩ <;> decide

/-- C7 (amended): with the character vocabulary the repository's own parser
test forces — the spec's `<`/`>` assignments swapped, so `>` maps to East
and `<` to West, while `^` to North, `v` to South, `o` to Down and `x` to Up
stay as stated — `from_str((5,3,8), ">>>^>v>o<<xv<")` produces exactly the
worm built directly from the test's direction list with the same head (so
their `segment_positions()` sequences are equal), and on any input
containing a character outside the vocabulary the parse fails with an error
identifying an offending character and produces no partial worm. -/
theorem from_str_test_mapping_spec :
    (Worm.fromStrByTest ⟨5, 3, 8⟩ parserTestString = ParseOutcome.ok wormDirect ∧
     Worm.new ⟨5, 3, 8⟩ parserTestDirections = WormNewOutcome.ok wormDirect) ∧
    (∀ (p : Vector3i) (s : String) (c : Char),
      c ∈ s.data → testCharDirection c = none →
      (Worm.fromStrByTest p s).namesBadChar testCharDirection s.data) := by
  constructor
  · exact ⟨by decide, by decide⟩
  · intro p s c hc hv
    obtain ⟨c2, he, hv2, hm⟩ :=
      parseDirections_err_of_bad testCharDirection s.data c hc hv
    simp only [Worm.fromStrByTest, fromStrWith, he]
    exact ⟨hv2, hm⟩

/-- C7 witness: the amended statement's parser equivalence at the concrete
test input, and a rejection of a concrete input holding the
out-of-vocabulary character `a`. -/
theorem from_str_test_mapping_spec_w :
    Worm.fromStrByTest ⟨5, 3, 8⟩ parserTestString = ParseOutcome.ok wormDirect ∧
    (Worm.fromStrByTest ⟨0, 0, 0⟩ "<a>").namesBadChar testCharDirection
      (String.data "<a>") :=
  ⟨from_str_test_mapping_spec.1.1,
   from_str_test_mapping_spec.2 ⟨0, 0, 0⟩ "<a>" 'a' (by decide) rfl⟩

end PuzzleGame
